import Mathlib

/-
Verification development for the redback-nc repository.

Shallow embedding of:
  * redback/redback/transient/afterglow.py  (Afterglow data container:
    truncation and flux-to-luminosity conversion),
  * redback/transient_models/tde_models.py  (analytic fallback model,
    the Metzger TDE fallback integrator and its observable wrapper).

Numpy float arrays are modelled as Lean lists (or index functions) over a
linear ordered field; `ℝ` is used where transcendental functions
(`Real.log`, real powers, `Real.pi`) appear in the source.  Two-row numpy
error arrays (shape 2 x n) are modelled as lists of pairs
(positive error, negative error).  Fallible Python code is modelled with
`Except String`.
-/

namespace Redback

/-- The four data modes of afterglow.py (module constant DATA_MODES). -/
inductive DataMode
  | luminosity
  | flux
  | flux_density
  | photometry
  deriving DecidableEq, Repr

/-- Data attributes of an Afterglow object (afterglow.py lines 26-52).
The value arrays are lists over a linear ordered field `A`; each error
array `*_err` (numpy shape 2 x n) is a list of (positive, negative) error
pairs.  `redshift` is `Option A`: `none` models numpy NaN (a GRB without a
measured redshift). -/
structure Transient (A : Type) where
  data_mode : DataMode
  time : List A
  time_err : List (A × A)
  time_rest_frame : List A
  time_rest_frame_err : List (A × A)
  flux : List A
  flux_err : List (A × A)
  flux_density : List A
  flux_density_err : List (A × A)
  Lum50 : List A
  Lum50_err : List (A × A)
  redshift : Option A
  photon_index : A

variable {A : Type} [LinearOrderedField A] {B : Type}

/-- Mask of afterglow.py lines 140-148: entry i is true when the positive
time error exceeds 0.0025 and the time is below 2.0
(np.logical_and of mask1 and mask2). -/
def promptMask (errs : List (A × A)) (ts : List A) : List Bool :=
  List.zipWith (fun (e : A × A) (t : A) => decide (e.1 > 0.0025 ∧ t < 2.0)) errs ts

/-- Numpy boolean indexing xs[~mask]: keep the entries whose mask bit is
false. -/
def keepNotMask (mask : List Bool) (xs : List B) : List B :=
  ((mask.zip xs).filter (fun p => !p.1)).map (fun p => p.2)

/-- Afterglow._truncate_prompt_time_error (afterglow.py lines 140-159).
The mask is computed from the rest-frame time arrays in luminosity mode
and from the observer-frame time arrays otherwise; only the value/error
arrays of the current data mode are filtered. -/
def truncatePromptTimeError (s : Transient A) : Transient A :=
  let mask := if s.data_mode = DataMode.luminosity
    then promptMask s.time_rest_frame_err s.time_rest_frame
    else promptMask s.time_err s.time
  if s.data_mode = DataMode.luminosity then
    { s with time_rest_frame := keepNotMask mask s.time_rest_frame,
             time_rest_frame_err := keepNotMask mask s.time_rest_frame_err,
             Lum50 := keepNotMask mask s.Lum50,
             Lum50_err := keepNotMask mask s.Lum50_err }
  else if s.data_mode = DataMode.flux then
    { s with flux := keepNotMask mask s.flux,
             flux_err := keepNotMask mask s.flux_err }
  else if s.data_mode = DataMode.flux_density then
    { s with flux_density := keepNotMask mask s.flux_density,
             flux_density_err := keepNotMask mask s.flux_density_err }
  else s

/-- Numpy np.argmax on a list: index of the first occurrence of the
maximum (0 on the empty list). -/
def npArgmax (l : List A) : ℕ :=
  match l.maximum with
  | none => 0
  | some m => l.indexOf m

/-- Afterglow._truncate_left_of_max (afterglow.py lines 161-179): drop
everything before the first maximum of the value array of the current
data mode, then also truncate time and time_err; photometry mode raises
ValueError. -/
def truncateLeftOfMax (s : Transient A) : Except String (Transient A) :=
  match s.data_mode with
  | DataMode.luminosity =>
    let mi := npArgmax s.Lum50
    Except.ok { s with time_rest_frame := s.time_rest_frame.drop mi,
                       time_rest_frame_err := s.time_rest_frame_err.drop mi,
                       Lum50 := s.Lum50.drop mi,
                       Lum50_err := s.Lum50_err.drop mi,
                       time := s.time.drop mi,
                       time_err := s.time_err.drop mi }
  | DataMode.flux =>
    let mi := npArgmax s.flux
    Except.ok { s with flux := s.flux.drop mi,
                       flux_err := s.flux_err.drop mi,
                       time := s.time.drop mi,
                       time_err := s.time_err.drop mi }
  | DataMode.flux_density =>
    let mi := npArgmax s.flux_density
    Except.ok { s with flux_density := s.flux_density.drop mi,
                       flux_density_err := s.flux_density_err.drop mi,
                       time := s.time.drop mi,
                       time_err := s.time_err.drop mi }
  | DataMode.photometry => Except.error "ValueError"

/-- Python slice xs[k:] for a possibly negative integer k. -/
def pySliceFrom (k : ℤ) (xs : List B) : List B :=
  if 0 ≤ k then xs.drop k.toNat else xs.drop ((xs.length : ℤ) + k).toNat

/-- Afterglow._truncate_default (afterglow.py lines 181-196):
to_del = len(time) - (count of positive time errors above 0.1 + 2), then
slice every relevant array from to_del (Python semantics for a negative
index). -/
def truncateDefault (s : Transient A) : Transient A :=
  let bigErr := s.time_err.map (fun e => decide (e.1 > 0.1))
  let kept := ((bigErr.zip s.time).filter (fun p => p.1)).length
  let to_del : ℤ := (s.time.length : ℤ) - ((kept : ℤ) + 2)
  let s1 := { s with time := pySliceFrom to_del s.time,
                     time_err := pySliceFrom to_del s.time_err }
  if s.data_mode = DataMode.luminosity then
    { s1 with time_rest_frame := pySliceFrom to_del s.time_rest_frame,
              time_rest_frame_err := pySliceFrom to_del s.time_rest_frame_err,
              Lum50 := pySliceFrom to_del s.Lum50,
              Lum50_err := pySliceFrom to_del s.Lum50_err }
  else if s.data_mode = DataMode.flux then
    { s1 with flux := pySliceFrom to_del s.flux,
              flux_err := pySliceFrom to_del s.flux_err }
  else if s.data_mode = DataMode.flux_density then
    { s1 with flux_density := pySliceFrom to_del s.flux_density,
              flux_density_err := pySliceFrom to_del s.flux_density_err }
  else s1

/-- Afterglow.truncate (afterglow.py lines 132-138): dispatch on the
method string; any unrecognized method falls through to the default
truncation. -/
def truncate (method : String) (s : Transient A) : Except String (Transient A) :=
  if method = "prompt_time_error" then Except.ok (truncatePromptTimeError s)
  else if method = "left_of_max" then truncateLeftOfMax s
  else Except.ok (truncateDefault s)

/-- Claim-side description of the prompt-time-error rule, written from the
words of the specification: walk the aligned time-error, time and value
arrays together and remove exactly the measurements whose positive time
error exceeds 0.0025 and whose time is below 2.0. -/
def specPromptFilter : List (A × A) → List A → List B → List B
  | e :: es, t :: ts, x :: xs =>
    if e.1 > 0.0025 ∧ t < 2.0 then specPromptFilter es ts xs
    else x :: specPromptFilter es ts xs
  | _, _, _ => []

theorem keepNotMask_promptMask (errs : List (A × A)) (ts : List A) (xs : List B) :
    keepNotMask (promptMask errs ts) xs = specPromptFilter errs ts xs := by
  induction errs generalizing ts xs with
  | nil => cases ts <;> cases xs <;> simp [promptMask, keepNotMask, specPromptFilter]
  | cons e es ih =>
    cases ts with
    | nil => cases xs <;> simp [promptMask, keepNotMask, specPromptFilter]
    | cons t ts2 =>
      cases xs with
      | nil => simp [promptMask, keepNotMask, specPromptFilter]
      | cons x xs2 =>
        by_cases hc : (e.1 > 0.0025 ∧ t < 2.0)
        · have hb : (decide (e.1 > 0.0025) && decide (t < 2.0)) = true := by
            simp [Bool.and_eq_true, decide_eq_true_eq]; tauto
          simp [promptMask, keepNotMask, specPromptFilter, hc, hb, ← ih ts2 xs2]
        · have hb : (decide (e.1 > 0.0025) && decide (t < 2.0)) = false := by
            rcases not_and_or.mp hc with h | h <;> simp [h]
          simp [promptMask, keepNotMask, specPromptFilter, hc, hb, ← ih ts2 xs2]

theorem truncatePrompt_flux_branch (s : Transient A)
    (hm : s.data_mode = DataMode.flux) :
    truncatePromptTimeError s =
      { s with flux := specPromptFilter s.time_err s.time s.flux,
               flux_err := specPromptFilter s.time_err s.time s.flux_err } := by
  unfold truncatePromptTimeError
  rw [hm]
  simp [keepNotMask_promptMask]

theorem truncatePrompt_flux_density_branch (s : Transient A)
    (hm : s.data_mode = DataMode.flux_density) :
    truncatePromptTimeError s =
      { s with flux_density := specPromptFilter s.time_err s.time s.flux_density,
               flux_density_err :=
                 specPromptFilter s.time_err s.time s.flux_density_err } := by
  unfold truncatePromptTimeError
  rw [hm]
  simp [keepNotMask_promptMask]

theorem truncatePrompt_luminosity_branch (s : Transient A)
    (hm : s.data_mode = DataMode.luminosity) :
    truncatePromptTimeError s =
      { s with time_rest_frame :=
                 specPromptFilter s.time_rest_frame_err s.time_rest_frame s.time_rest_frame,
               time_rest_frame_err :=
                 specPromptFilter s.time_rest_frame_err s.time_rest_frame s.time_rest_frame_err,
               Lum50 := specPromptFilter s.time_rest_frame_err s.time_rest_frame s.Lum50,
               Lum50_err :=
                 specPromptFilter s.time_rest_frame_err s.time_rest_frame s.Lum50_err } := by
  unfold truncatePromptTimeError
  rw [hm]
  simp [keepNotMask_promptMask]

/-- Afterglow._get_redshift_for_luminosity_calculation (afterglow.py lines
264-275): a NaN redshift is replaced by the default 0.75 (this branch is
checked first); otherwise luminosity and flux_density modes abort the
conversion by returning None, and flux mode returns the stored redshift. -/
def getRedshiftForLum (s : Transient ℝ) : Option ℝ :=
  match s.redshift with
  | none => some 0.75
  | some z =>
    if s.data_mode = DataMode.luminosity then none
    else if s.data_mode = DataMode.flux_density then none
    else some z

/-- Afterglow.analytical_flux_to_luminosity (afterglow.py lines 208-223)
together with _calculate_rest_frame_time_and_luminosity (lines 277-281).
The luminosity distance comes from the external cosmology library and is
passed in as the function dL.  counts_to_flux_fraction is the literal 1 of
line 216.  The final _save_luminosity_data call is file output and has no
effect on the in-memory state modelled here. -/
noncomputable def analyticalFluxToLuminosity (dL : ℝ → ℝ) (s : Transient ℝ) :
    Transient ℝ :=
  match getRedshiftForLum s with
  | none => s
  | some z =>
    let k_corr : ℝ := (1 + z) ^ (s.photon_index - 2)
    let isotropic_bolometric_flux : ℝ := (dL z) ^ (2 : ℝ) * 4 * Real.pi * k_corr
    let counts_to_flux_fraction : ℝ := 1
    { s with
      Lum50 := s.flux.map
        (fun f => f * counts_to_flux_fraction * isotropic_bolometric_flux * 1e-50),
      Lum50_err := s.flux_err.map
        (fun e => (e.1 * isotropic_bolometric_flux * 1e-50,
                   e.2 * isotropic_bolometric_flux * 1e-50)),
      time_rest_frame := s.time.map (fun t => t / (1 + z)),
      time_rest_frame_err := s.time_err.map (fun e => (e.1 / (1 + z), e.2 / (1 + z))),
      data_mode := DataMode.luminosity }

/-- Python name.startswith(pre) on strings modelled as character lists. -/
def pyStartswith (s pre : List Char) : Bool := pre.isPrefixOf s

/-- Python name.lstrip(chars): remove every leading character that belongs
to the given character set. -/
def pyLstrip (s : List Char) (chars : List Char) : List Char :=
  s.dropWhile (fun c => c ∈ chars)

/-- The GRB prefix characters. -/
def grbChars : List Char := ['G', 'R', 'B']

/-- Name normalisation of Afterglow.__init__ (afterglow.py lines 30-31):
prepend GRB when the given name does not already start with it. -/
def afterglowName (n : List Char) : List Char :=
  if pyStartswith n grbChars then n else grbChars ++ n

/-- Afterglow._stripped_name (afterglow.py lines 62-64):
self.name.lstrip applied with the character set GRB. -/
def strippedName (n : List Char) : List Char :=
  pyLstrip (afterglowName n) grbChars

/-- Claim-side reading of the stripped name: remove one single leading GRB
prefix from the input name (and nothing when the prefix is absent). -/
def stripOneGRB (n : List Char) : List Char :=
  if pyStartswith n grbChars then n.drop 3 else n

/-- Keyword parameters accepted by Afterglow.__init__ (afterglow.py line
26): only name and data_mode; there is no catch-all kwargs parameter. -/
def afterglowInitKeywords : List String := ["name", "data_mode"]

/-- Python call semantics for Afterglow.__init__ with keyword arguments: a
keyword that matches no parameter of the signature raises TypeError. -/
def pyCallAfterglowInit (keywords : List String) : Except String Unit :=
  if keywords.all (fun k => k ∈ afterglowInitKeywords) then Except.ok ()
  else Except.error "TypeError: __init__ got an unexpected keyword argument"

/-- Afterglow.from_path_and_grb (afterglow.py lines 82-85): resolve the
data directory through find_path (external utility, passed in as a
function), then call the constructor as cls(name=grb, path=data_dir). -/
def from_path_and_grb (findPath : String → String) (path grb : String) :
    Except String Unit :=
  let _data_dir := findPath path
  let _name := grb
  pyCallAfterglowInit ["name", "path"]

/-- Afterglow.from_path_and_grb_with_truncation (afterglow.py lines
87-92): first builds the object via from_path_and_grb; the subsequent
load_and_truncate_data call is only reached when that call returns. -/
def from_path_and_grb_with_truncation (findPath : String → String)
    (path grb : String) : Except String Unit :=
  match from_path_and_grb findPath path grb with
  | Except.error e => Except.error e
  | Except.ok _ => Except.ok ()

/-- Names bound at module level in tde_models.py: the imports of lines 1-9
and the top-level function definitions.  Neither interp1d, day_to_s,
blackbody_to_flux_density nor time_temp is among them. -/
def tdeModuleNames : List String :=
  ["np", "ip", "sed", "photosphere", "cosmo", "calc_kcorrected_properties",
   "citation_wrapper", "cc", "namedtuple", "uu",
   "_analytic_fallback", "_semianalytical_fallback", "_metzger_tde",
   "metzger_tde", "tde_analytical_bolometric", "tde_analytical",
   "tde_semianalytical"]

/-- Local names bound in metzger_tde when line 182 executes: the seven
parameters, kwargs, and frequency (assigned on line 181). -/
def metzgerTdeBound : List String :=
  ["time", "redshift", "mbh_6", "stellar_mass", "eta", "alpha", "beta",
   "kwargs", "frequency"]

/-- Python name resolution: a name is looked up among the bound local
names and then among the module-level names of tde_models.py; an unbound
name raises NameError. -/
def pyLookup (locals : List String) (n : String) : Except String Unit :=
  if n ∈ locals ∨ n ∈ tdeModuleNames then Except.ok ()
  else Except.error ("NameError: name " ++ n ++ " is not defined")

/-- Evaluation skeleton of metzger_tde (tde_models.py lines 181-202),
driven by the keys present in kwargs.  Line 181 reads kwargs[frequency]
(KeyError when absent); line 182 evaluates the expression
_metzger_tde(time_temp, **kwargs), whose argument time_temp must be
resolved as a name; the remaining lines 183-202 (interp1d, k-correction,
blackbody flux, unit conversion) can only run when that resolution
succeeds. -/
def metzger_tde_eval (kwargsKeys : List String) : Except String Unit :=
  if "frequency" ∈ kwargsKeys then
    match pyLookup metzgerTdeBound "time_temp" with
    | Except.error e => Except.error e
    | Except.ok _ => Except.ok ()
  else Except.error "KeyError: frequency"

/-- _analytic_fallback (tde_models.py lines 11-22): the masked assignments
fill every entry, so element i is the 5/3 power-law value when
time_i - t_0 is positive and the constant plateau value otherwise. -/
noncomputable def analytic_fallback (time : List ℝ) (l0 t_0 : ℝ) : List ℝ :=
  time.map (fun t =>
    if t - t_0 > 0 then l0 / (t * 86400) ^ ((5 : ℝ) / 3)
    else l0 / (t_0 * 86400) ^ ((5 : ℝ) / 3))

/-- tde_analytical_bolometric (tde_models.py lines 204-222): run the raw
engine luminosity through the interaction process when one is given (the
process, e.g. Diffusion, lives outside this module and is passed as a
function taking the time grid and the raw luminosities). -/
noncomputable def tde_analytical_bolometric (time : List ℝ) (l0 t_0 : ℝ)
    (interaction_process : Option (List ℝ → List ℝ → List ℝ)) : List ℝ :=
  let lbol := analytic_fallback time l0 t_0
  match interaction_process with
  | some ipf => ipf time lbol
  | none => lbol

/-- Parameters of _metzger_tde (tde_models.py lines 27-40) together with
the physical constants it reads from redback.constants, a module that is
not part of the sources here (graviational_constant, speed_of_light,
solar_mass, solar_radius, sigma_sb); the constants are therefore carried
as parameters.  The kwargs defaults are the defaults of lines 37-40. -/
structure MetzParams where
  mbh_6 : ℝ
  stellar_mass : ℝ
  eta : ℝ
  alpha : ℝ
  beta : ℝ
  t0 : ℝ := 1.0
  binding_energy_const : ℝ := 0.8
  zeta : ℝ := 2.0
  hoverR : ℝ := 0.3
  G : ℝ
  c : ℝ
  Msun : ℝ
  Rsun : ℝ
  sigma_sb : ℝ

/-- Stellar mass in cgs (line 49). -/
noncomputable def Mstar (P : MetzParams) : ℝ := P.stellar_mass * P.Msun

/-- Stellar radius in cgs (line 51). -/
noncomputable def Rstar (P : MetzParams) : ℝ := P.stellar_mass ^ (0.8 : ℝ) * P.Rsun

/-- Tidal radius (line 53). -/
noncomputable def Rt (P : MetzParams) : ℝ :=
  Rstar P * (P.mbh_6 * 1.0e6 / P.stellar_mass) ^ ((1 : ℝ) / 3)

/-- Circularization radius (line 55). -/
noncomputable def Rcirc (P : MetzParams) : ℝ := 2.0 * Rt P / P.beta

/-- Fall-back time of the most tightly bound debris (line 57). -/
noncomputable def tfb (P : MetzParams) : ℝ :=
  58.0 * (3600.0 * 24.0) * P.mbh_6 ^ (0.5 : ℝ) * P.stellar_mass ^ (0.2 : ℝ) *
    (P.binding_energy_const / 0.8) ^ (-1.5 : ℝ)

/-- Eddington luminosity of the SMBH in units of 1e40 erg per s (line 59). -/
noncomputable def Ledd40 (P : MetzParams) : ℝ := 1.4e4 * P.mbh_6

/-- Numpy log10. -/
noncomputable def np_log10 (x : ℝ) : ℝ := Real.log x / Real.log 10

/-- Numpy logspace(a, b, n), endpoints included: point i is 10 raised to
a + i * (b - a) / (n - 1). -/
noncomputable def np_logspace (a b : ℝ) (n : ℕ) (i : ℕ) : ℝ :=
  (10 : ℝ) ^ (a + (i : ℝ) * ((b - a) / ((n : ℝ) - 1)))

/-- The internal time grid of _metzger_tde (line 60):
np.logspace(np.log10(1.0 * tfb), np.log10(100 * tfb), 500), as a function
of the grid index. -/
noncomputable def time_temp (P : MetzParams) (i : ℕ) : ℝ :=
  np_logspace (np_log10 (1.0 * tfb P)) (np_log10 (100 * tfb P)) 500 i

/-- The internal time grid as a list of its 500 entries. -/
noncomputable def timeTempList (P : MetzParams) : List ℝ :=
  (List.range 500).map (time_temp P)

/-- Fallback mass rate array (line 93). -/
noncomputable def Mdotfb (P : MetzParams) (i : ℕ) : ℝ :=
  (0.8 * Mstar P / (3.0 * tfb P)) * (time_temp P i / tfb P) ^ (-(5 : ℝ) / 3)

/-- State of the _metzger_tde evolution: one entry per numpy array touched
by the loop of lines 126-152, each as a function of the grid index
(np.empty_like buffers, so any index the code has not written yet holds an
arbitrary value).  Mdotfb is fully precomputed (line 93) and tdays, Rg,
nuLnu and the Eddington-normalised fallback rate are never read by the
loop, so they are not part of the state. -/
structure MetzState where
  Me : ℕ → ℝ
  Ee40 : ℕ → ℝ
  Rv : ℕ → ℝ
  Racc : ℕ → ℝ
  Rph : ℕ → ℝ
  Edotfb40 : ℕ → ℝ
  tacc : ℕ → ℝ
  Edotbh40 : ℕ → ℝ
  MdotBH : ℕ → ℝ
  Teff : ℕ → ℝ
  Lrad : ℕ → ℝ
  Lamb : ℕ → ℝ
  LX40 : ℕ → ℝ

/-- Single-cell array write arr[i] = v. -/
def updF (f : ℕ → ℝ) (i : ℕ) (v : ℝ) : ℕ → ℝ :=
  fun j => if j = i then v else f j

/-- The initial envelope mass Me[0] of line 100. -/
noncomputable def metzMe0 (P : MetzParams) : ℝ :=
  0.1 * Mstar P + (0.4 * Mstar P) * (1.0 - P.t0 ^ (-(2 : ℝ) / 3))

/-- Initialization of the grid quantities at grid point 0 (tde_models.py
lines 98-123), applied to the uninitialized np.empty buffers g. -/
noncomputable def metzInit (P : MetzParams) (g : MetzState) : MetzState :=
  let me0 := metzMe0 P
  let rv0 := (2.0 * (Rt P) ^ (2 : ℝ) / (5.0 * P.binding_energy_const * Rstar P)) *
    (me0 / Mstar P)
  let ee0 := ((2.0 * P.G * P.mbh_6 * 1.0e6 * me0) / (5.0 * rv0)) * 2.0e-7
  let lamb0 := 0.38 * me0 / (10.0 * Real.pi * rv0 ^ (2 : ℝ))
  let rph0 := rv0 * (1.0 + Real.log lamb0)
  let racc0 := P.zeta * rv0
  let edotfb0 := (P.G * P.mbh_6 * 1.0e6 * Mdotfb P 0 / racc0) * 2.0e-7
  let lrad0 := Ledd40 P + edotfb0
  let tacc0 := 2.2e-17 * (10.0 / (3.0 * P.alpha)) * rv0 ^ (2 : ℝ) /
    (P.G * P.mbh_6 * 1.0e6 * Rcirc P) ^ (0.5 : ℝ) * P.hoverR ^ (-2.0 : ℝ)
  let mdotbh0 := me0 / tacc0
  let edotbh0 := P.eta * P.c ^ (2 : ℝ) * (me0 / tacc0) * 1.0e-40
  let teff0 := 1.0e10 * ((Ledd40 P + edotfb0) /
    (4.0 * Real.pi * P.sigma_sb * rph0 ^ (2 : ℝ))) ^ (0.25 : ℝ)
  { g with
    Me := updF g.Me 0 me0,
    Rv := updF g.Rv 0 rv0,
    Ee40 := updF g.Ee40 0 ee0,
    Lamb := updF g.Lamb 0 lamb0,
    Rph := updF g.Rph 0 rph0,
    Racc := updF g.Racc 0 racc0,
    Edotfb40 := updF g.Edotfb40 0 edotfb0,
    Lrad := updF g.Lrad 0 lrad0,
    tacc := updF g.tacc 0 tacc0,
    MdotBH := updF g.MdotBH 0 mdotbh0,
    Edotbh40 := updF g.Edotbh40 0 edotbh0,
    Teff := updF g.Teff 0 teff0 }

/-- Numpy index arr[ii - 1] as read inside the loop: for ii = 0 the Python
index -1 designates the last cell of the 500-entry arrays. -/
def pyPrev (ii : ℕ) : ℕ := if ii = 0 then 499 else ii - 1

/-- One iteration of the evolution loop of _metzger_tde (tde_models.py
lines 126-152), for loop variable ii, with the in-loop assignments applied
in source order (each quantity reads the freshly written cells of the
quantities updated above it, and index ii - 1 of the others). -/
noncomputable def metzStep (P : MetzParams) (s : MetzState) (ii : ℕ) : MetzState :=
  let k := pyPrev ii
  let t := time_temp P
  let me := updF s.Me ii
    (s.Me k - (s.MdotBH k - Mdotfb P k) * (t ii - t k))
  let ee := updF s.Ee40 ii
    (s.Ee40 k + (Ledd40 P - s.Edotbh40 k) * (t ii - t k))
  let rv := updF s.Rv ii
    (((2.0 * P.G * P.mbh_6 * 1.0e6 * me ii) / (5.0 * ee ii)) * 2.0e-7)
  let lamb := updF s.Lamb ii
    (0.38 * me ii / (10.0 * Real.pi * rv ii ^ (2 : ℝ)))
  let rph := updF s.Rph ii (rv ii * (1.0 + Real.log (lamb ii)))
  let racc := updF s.Racc ii
    (P.zeta * rv 0 * (t ii / tfb P) ^ ((2 : ℝ) / 3))
  let edotfb := updF s.Edotfb40 ii
    ((P.G * P.mbh_6 * 1.0e6 * Mdotfb P ii / racc ii) * 2.0e-7)
  let lrad := updF s.Lrad ii (Ledd40 P + edotfb ii)
  let teff := updF s.Teff ii
    (1.0e10 * ((Ledd40 P + edotfb ii) /
      (4.0 * Real.pi * P.sigma_sb * rph ii ^ (2 : ℝ))) ^ (0.25 : ℝ))
  let tacc2 := updF s.tacc ii
    (2.2e-17 * (10.0 / (3.0 * P.alpha)) * rv ii ^ (2 : ℝ) /
      (P.G * P.mbh_6 * 1.0e6 * Rcirc P) ^ (0.5 : ℝ) * P.hoverR ^ (-2.0 : ℝ))
  let mdotbh := updF s.MdotBH ii (me ii / tacc2 ii)
  let lx := updF s.LX40 ii
    (0.01 * (mdotbh ii / 1.0e20) * (P.c ^ (2 : ℝ) / 1.0e20))
  let edotbh := updF s.Edotbh40 ii
    (P.eta * P.c ^ (2 : ℝ) * (me ii / tacc2 ii) * 1.0e-40)
  { Me := me, Ee40 := ee, Rv := rv, Lamb := lamb, Rph := rph, Racc := racc,
    Edotfb40 := edotfb, Lrad := lrad, Teff := teff, tacc := tacc2,
    MdotBH := mdotbh, LX40 := lx, Edotbh40 := edotbh }

/-- The full evolution of _metzger_tde: initialization at grid point 0
followed by the loop for ii in range(len(time_temp)), i.e. over all 500
indices starting at ii = 0 (tde_models.py line 126). -/
noncomputable def metzEvolve (P : MetzParams) (g : MetzState) : MetzState :=
  (List.range 500).foldl (metzStep P) (metzInit P g)

/-- C1: metzger_tde cannot return the blackbody flux density or AB
magnitude: line 182 evaluates the unbound name time_temp (a local of
_metzger_tde only), so the function raises NameError for every call whose
kwargs provide a frequency, and the photosphere interpolation and SED
conversion of lines 183-202 are unreachable. -/
theorem metzger_tde_raises_nameerror (ks : List String) (h : "frequency" ∈ ks) :
    metzger_tde_eval ks =
      Except.error "NameError: name time_temp is not defined" := by
  unfold metzger_tde_eval
  rw [if_pos h]
  rfl

theorem metzger_tde_raises_nameerror_witness :
    "frequency" ∈ ["frequency", "output_format"]
  ∧ metzger_tde_eval ["frequency", "output_format"] =
      Except.error "NameError: name time_temp is not defined" :=
  ⟨by decide, metzger_tde_raises_nameerror _ (by decide)⟩

/-- C9: from_path_and_grb forwards the keyword argument path, which
Afterglow.__init__ does not accept, so it raises TypeError for every path
and grb; from_path_and_grb_with_truncation calls it first and therefore
raises as well. -/
theorem from_path_and_grb_always_type_error (findPath : String → String)
    (path grb : String) :
    from_path_and_grb findPath path grb =
      Except.error "TypeError: __init__ got an unexpected keyword argument"
  ∧ from_path_and_grb_with_truncation findPath path grb =
      Except.error "TypeError: __init__ got an unexpected keyword argument" :=
  ⟨rfl, rfl⟩

/-- C10 counterexample: for the input name B1 the constructor stores
GRBB1, and lstrip removes every leading G, R or B character, giving 1; a
single GRB prefix removal would give back B1. -/
theorem stripped_name_not_single_prefix :
    strippedName ['B', '1'] ≠ stripOneGRB ['B', '1'] := by
  decide

/-- C10 amended: the stored name always starts with GRB, GRB is prepended
exactly when the input name does not already start with it, and the
_stripped_name property equals the input name with every leading character
from the set G, R, B removed (Python lstrip semantics, not single-prefix
removal). -/
theorem afterglow_name_grb (n : List Char) :
    pyStartswith (afterglowName n) grbChars = true
  ∧ (pyStartswith n grbChars = false → afterglowName n = grbChars ++ n)
  ∧ (pyStartswith n grbChars = true → afterglowName n = n)
  ∧ strippedName n = pyLstrip n grbChars := by
  have hpre : ∀ m : List Char, pyStartswith (grbChars ++ m) grbChars = true := by
    intro m
    simp [pyStartswith, grbChars, List.isPrefixOf]
  have hdrop : ∀ m : List Char, pyLstrip (grbChars ++ m) grbChars = pyLstrip m grbChars := by
    intro m
    simp [pyLstrip, grbChars, List.dropWhile]
  cases h : pyStartswith n grbChars with
  | true =>
    refine ⟨?_, ?_, ?_, ?_⟩
    · simpa [afterglowName, h] using h
    · intro hf; simp at hf
    · intro _; simp [afterglowName, h]
    · simp [strippedName, afterglowName, h]
  | false =>
    refine ⟨?_, ?_, ?_, ?_⟩
    · simpa [afterglowName, h] using hpre n
    · intro _; simp [afterglowName, h]
    · intro ht; simp at ht
    · simpa [strippedName, afterglowName, h] using hdrop n

/-- A flux-mode Afterglow with two data points: the first is prompt
emission (time below 2 seconds, positive time error above 0.0025). -/
def promptFluxState : Transient ℚ :=
  { data_mode := DataMode.flux
    time := [1, 3]
    time_err := [(1/100, 1/100), (1/100, 1/100)]
    time_rest_frame := []
    time_rest_frame_err := []
    flux := [5, 6]
    flux_err := [(1, 1), (1, 1)]
    flux_density := []
    flux_density_err := []
    Lum50 := []
    Lum50_err := []
    redshift := some 1
    photon_index := 2 }

/-- C4: _truncate_prompt_time_error in flux mode filters flux and flux_err
but leaves time and time_err untouched, so equal-length time and flux
arrays come out with different lengths. -/
theorem truncate_prompt_misaligns_flux :
    truncate "prompt_time_error" promptFluxState =
      Except.ok (truncatePromptTimeError promptFluxState)
  ∧ promptFluxState.flux.length = promptFluxState.time.length
  ∧ (truncatePromptTimeError promptFluxState).flux.length = 1
  ∧ (truncatePromptTimeError promptFluxState).time.length = 2
  ∧ (truncatePromptTimeError promptFluxState).flux.length ≠
      (truncatePromptTimeError promptFluxState).time.length := by
  refine ⟨rfl, ?_⟩
  rw [truncatePrompt_flux_branch promptFluxState rfl]
  have hspec : specPromptFilter promptFluxState.time_err promptFluxState.time
      promptFluxState.flux = [6] := by
    norm_num [promptFluxState, specPromptFilter]
  refine ⟨rfl, ?_, rfl, ?_⟩
  · show (specPromptFilter promptFluxState.time_err promptFluxState.time
      promptFluxState.flux).length = 1
    rw [hspec]
    rfl
  · show (specPromptFilter promptFluxState.time_err promptFluxState.time
      promptFluxState.flux).length ≠ promptFluxState.time.length
    rw [hspec]
    simp [promptFluxState]

/-- C5: truncate with method prompt_time_error removes exactly the
measurements whose positive time error exceeds 0.0025 and whose time lies
below 2.0 (so any measurement at or after 2.0 seconds is kept regardless
of its error); in luminosity mode the same rule runs on the rest-frame
time arrays. -/
theorem truncate_prompt_removes_exactly (s : Transient A) :
    truncate "prompt_time_error" s = Except.ok (truncatePromptTimeError s)
  ∧ (s.data_mode = DataMode.flux →
       (truncatePromptTimeError s).flux = specPromptFilter s.time_err s.time s.flux
     ∧ (truncatePromptTimeError s).flux_err =
         specPromptFilter s.time_err s.time s.flux_err)
  ∧ (s.data_mode = DataMode.flux_density →
       (truncatePromptTimeError s).flux_density =
         specPromptFilter s.time_err s.time s.flux_density
     ∧ (truncatePromptTimeError s).flux_density_err =
         specPromptFilter s.time_err s.time s.flux_density_err)
  ∧ (s.data_mode = DataMode.luminosity →
       (truncatePromptTimeError s).Lum50 =
         specPromptFilter s.time_rest_frame_err s.time_rest_frame s.Lum50
     ∧ (truncatePromptTimeError s).Lum50_err =
         specPromptFilter s.time_rest_frame_err s.time_rest_frame s.Lum50_err
     ∧ (truncatePromptTimeError s).time_rest_frame =
         specPromptFilter s.time_rest_frame_err s.time_rest_frame s.time_rest_frame
     ∧ (truncatePromptTimeError s).time_rest_frame_err =
         specPromptFilter s.time_rest_frame_err s.time_rest_frame s.time_rest_frame_err) := by
  refine ⟨rfl, fun hm => ?_, fun hm => ?_, fun hm => ?_⟩
  · rw [truncatePrompt_flux_branch s hm]
    exact ⟨rfl, rfl⟩
  · rw [truncatePrompt_flux_density_branch s hm]
    exact ⟨rfl, rfl⟩
  · rw [truncatePrompt_luminosity_branch s hm]
    exact ⟨rfl, rfl, rfl, rfl⟩

theorem truncate_prompt_removes_exactly_witness :
    (truncatePromptTimeError promptFluxState).flux =
      specPromptFilter promptFluxState.time_err promptFluxState.time
        promptFluxState.flux
  ∧ (truncatePromptTimeError promptFluxState).flux_err =
      specPromptFilter promptFluxState.time_err promptFluxState.time
        promptFluxState.flux_err :=
  (truncate_prompt_removes_exactly promptFluxState).2.1 rfl

/-- C7 counterexample: a luminosity-mode Afterglow without a measured
redshift (NaN).  The NaN branch of _get_redshift_for_luminosity_calculation
fires before the data-mode guard, so analytical_flux_to_luminosity
proceeds with the default z = 0.75 and overwrites Lum50 (and the rest-frame
arrays) even though the data is already in luminosity mode. -/
noncomputable def lumNanState : Transient ℝ :=
  { data_mode := DataMode.luminosity
    time := []
    time_err := []
    time_rest_frame := [1]
    time_rest_frame_err := [(1, 1)]
    flux := []
    flux_err := []
    flux_density := []
    flux_density_err := []
    Lum50 := [1]
    Lum50_err := [(1, 1)]
    redshift := none
    photon_index := 2 }

theorem flux_to_lum_modifies_luminosity_mode :
    (analyticalFluxToLuminosity (fun _ => 1) lumNanState).Lum50 ≠
      lumNanState.Lum50 := by
  unfold analyticalFluxToLuminosity getRedshiftForLum lumNanState
  simp

/-- C7 amended: for an Afterglow with a measured (non-NaN) redshift whose
data_mode is luminosity or flux_density, analytical_flux_to_luminosity
returns without modifying any data attribute. -/
theorem flux_to_lum_noop_with_redshift (dL : ℝ → ℝ) (s : Transient ℝ) (z : ℝ)
    (hz : s.redshift = some z)
    (hm : s.data_mode = DataMode.luminosity ∨ s.data_mode = DataMode.flux_density) :
    analyticalFluxToLuminosity dL s = s := by
  unfold analyticalFluxToLuminosity getRedshiftForLum
  rcases hm with hm | hm <;> rw [hz, hm] <;> simp

noncomputable def lumModeState : Transient ℝ :=
  { lumNanState with redshift := some 1 }

theorem flux_to_lum_noop_with_redshift_witness :
    lumModeState.redshift = some 1
  ∧ (lumModeState.data_mode = DataMode.luminosity
     ∨ lumModeState.data_mode = DataMode.flux_density)
  ∧ analyticalFluxToLuminosity (fun _ => 1) lumModeState = lumModeState :=
  ⟨rfl, Or.inl rfl,
    flux_to_lum_noop_with_redshift (fun _ => 1) lumModeState 1 rfl (Or.inl rfl)⟩

/-- C6: in flux mode with a measured redshift z, the conversion stores
Lum50 = flux times 4 pi dL(z)^2 (1+z)^(photon_index - 2) 1e-50, rest-frame
times time/(1+z) with errors time_err/(1+z), and switches the data mode to
luminosity. -/
theorem flux_to_lum_formula (dL : ℝ → ℝ) (s : Transient ℝ) (z : ℝ)
    (hz : s.redshift = some z) (hm : s.data_mode = DataMode.flux) :
    (analyticalFluxToLuminosity dL s).Lum50 = s.flux.map
      (fun f => f * (4 * Real.pi * (dL z) ^ (2 : ℝ) *
        (1 + z) ^ (s.photon_index - 2) * 1e-50))
  ∧ (analyticalFluxToLuminosity dL s).time_rest_frame =
      s.time.map (fun t => t / (1 + z))
  ∧ (analyticalFluxToLuminosity dL s).time_rest_frame_err =
      s.time_err.map (fun e => (e.1 / (1 + z), e.2 / (1 + z)))
  ∧ (analyticalFluxToLuminosity dL s).data_mode = DataMode.luminosity := by
  unfold analyticalFluxToLuminosity getRedshiftForLum
  rw [hz, hm]
  refine ⟨?_, rfl, rfl, rfl⟩
  show s.flux.map _ = s.flux.map _
  have : ∀ f : ℝ, f * 1 * ((dL z) ^ (2 : ℝ) * 4 * Real.pi *
      ((1 + z) ^ (s.photon_index - 2))) * 1e-50
      = f * (4 * Real.pi * (dL z) ^ (2 : ℝ) *
        (1 + z) ^ (s.photon_index - 2) * 1e-50) := fun f => by ring
  simp only [this]

noncomputable def fluxModeState : Transient ℝ :=
  { data_mode := DataMode.flux
    time := [1]
    time_err := [(1, 1)]
    time_rest_frame := []
    time_rest_frame_err := []
    flux := [1]
    flux_err := [(1, 1)]
    flux_density := []
    flux_density_err := []
    Lum50 := []
    Lum50_err := []
    redshift := some 1
    photon_index := 2 }

theorem flux_to_lum_formula_witness :
    fluxModeState.redshift = some 1
  ∧ fluxModeState.data_mode = DataMode.flux
  ∧ ((analyticalFluxToLuminosity (fun _ => 1) fluxModeState).Lum50 =
       fluxModeState.flux.map (fun f => f * (4 * Real.pi * ((1 : ℝ)) ^ (2 : ℝ) *
         (1 + 1) ^ (fluxModeState.photon_index - 2) * 1e-50))
     ∧ (analyticalFluxToLuminosity (fun _ => 1) fluxModeState).time_rest_frame =
         fluxModeState.time.map (fun t => t / (1 + 1))
     ∧ (analyticalFluxToLuminosity (fun _ => 1) fluxModeState).time_rest_frame_err =
         fluxModeState.time_err.map (fun e => (e.1 / (1 + 1), e.2 / (1 + 1)))
     ∧ (analyticalFluxToLuminosity (fun _ => 1) fluxModeState).data_mode =
         DataMode.luminosity) :=
  ⟨rfl, rfl, flux_to_lum_formula (fun _ => 1) fluxModeState 1 rfl rfl⟩

/-- C8: each entry of _analytic_fallback past the turn-on time t_0 decays
as the 5/3 power law and each entry at or before t_0 takes the constant
plateau value; tde_analytical_bolometric with interaction_process None
returns exactly this array. -/
theorem analytic_fallback_powerlaw (time : List ℝ) (l0 t_0 : ℝ)
    (hl0 : 0 < l0) (ht0 : 0 < t_0) :
    (analytic_fallback time l0 t_0).length = time.length
  ∧ analytic_fallback time l0 t_0 = time.map (fun t =>
      if t_0 < t then l0 / (t * 86400) ^ ((5 : ℝ) / 3)
      else l0 / (t_0 * 86400) ^ ((5 : ℝ) / 3))
  ∧ tde_analytical_bolometric time l0 t_0 none = analytic_fallback time l0 t_0 := by
  refine ⟨by simp [analytic_fallback], ?_, rfl⟩
  simp only [analytic_fallback, gt_iff_lt, sub_pos]

theorem np_logspace_zero (a b : ℝ) : np_logspace a b 500 0 = (10 : ℝ) ^ a := by
  unfold np_logspace
  norm_num

theorem np_logspace_last (a b : ℝ) : np_logspace a b 500 499 = (10 : ℝ) ^ b := by
  unfold np_logspace
  congr 1
  push_cast
  ring

theorem np_logspace_succ (a b : ℝ) (i : ℕ) :
    np_logspace a b 500 (i + 1) = np_logspace a b 500 i * (10 : ℝ) ^ ((b - a) / 499) := by
  unfold np_logspace
  rw [← Real.rpow_add (by norm_num : (0 : ℝ) < 10)]
  congr 1
  push_cast
  ring

theorem rpow_np_log10 (x : ℝ) (hx : 0 < x) : (10 : ℝ) ^ (np_log10 x) = x := by
  have h10 : Real.log 10 ≠ 0 := ne_of_gt (Real.log_pos (by norm_num))
  rw [np_log10, Real.rpow_def_of_pos (by norm_num : (0 : ℝ) < 10)]
  rw [show Real.log 10 * (Real.log x / Real.log 10) = Real.log x from by field_simp]
  exact Real.exp_log hx

theorem tfb_pos (P : MetzParams) (hm : 0 < P.mbh_6) (hs : 0 < P.stellar_mass)
    (hb : 0 < P.binding_energy_const) : 0 < tfb P := by
  unfold tfb
  have h1 : (0 : ℝ) < P.mbh_6 ^ (0.5 : ℝ) := Real.rpow_pos_of_pos hm _
  have h2 : (0 : ℝ) < P.stellar_mass ^ (0.2 : ℝ) := Real.rpow_pos_of_pos hs _
  have h3 : (0 : ℝ) < (P.binding_energy_const / 0.8) ^ (-1.5 : ℝ) :=
    Real.rpow_pos_of_pos (by positivity) _
  positivity

/-- C3: the internal time grid of _metzger_tde has exactly 500 points, is
logarithmically spaced with the constant point-to-point ratio 100^(1/499),
starts at the fall-back time tfb and ends at 100 tfb. -/
theorem time_grid_log_spaced (P : MetzParams) (hm : 0 < P.mbh_6)
    (hs : 0 < P.stellar_mass) (hb : 0 < P.binding_energy_const) :
    (timeTempList P).length = 500
  ∧ time_temp P 0 = tfb P
  ∧ time_temp P 499 = 100 * tfb P
  ∧ ∀ i : ℕ, i + 1 ≤ 499 →
      time_temp P (i + 1) = time_temp P i * (100 : ℝ) ^ ((1 : ℝ) / 499) := by
  have htfb := tfb_pos P hm hs hb
  have h10 : Real.log 10 ≠ 0 := ne_of_gt (Real.log_pos (by norm_num))
  have hone : (1.0 : ℝ) * tfb P = tfb P := by norm_num
  refine ⟨by simp [timeTempList], ?_, ?_, ?_⟩
  · rw [time_temp, np_logspace_zero, rpow_np_log10 _ (by linarith), hone]
  · rw [time_temp, np_logspace_last, rpow_np_log10 _ (by linarith)]
  · intro i _
    rw [time_temp, time_temp, np_logspace_succ]
    congr 1
    have hba : np_log10 (100 * tfb P) - np_log10 (1.0 * tfb P) =
        Real.log 100 / Real.log 10 := by
      unfold np_log10
      rw [hone, Real.log_mul (by norm_num : (100 : ℝ) ≠ 0) (ne_of_gt htfb)]
      ring
    rw [hba, Real.rpow_def_of_pos (by norm_num : (0 : ℝ) < 10),
      Real.rpow_def_of_pos (by norm_num : (0 : ℝ) < 100)]
    congr 1
    field_simp
    ring

noncomputable def metzWitnessParams : MetzParams :=
  { mbh_6 := 1, stellar_mass := 1, eta := 1, alpha := 1, beta := 1,
    binding_energy_const := 1, G := 1, c := 1, Msun := 1, Rsun := 1,
    sigma_sb := 1 }

theorem time_grid_log_spaced_witness :
    (0 : ℝ) < metzWitnessParams.mbh_6
  ∧ (0 : ℝ) < metzWitnessParams.stellar_mass
  ∧ (0 : ℝ) < metzWitnessParams.binding_energy_const
  ∧ (timeTempList metzWitnessParams).length = 500
  ∧ time_temp metzWitnessParams 0 = tfb metzWitnessParams
  ∧ time_temp metzWitnessParams 499 = 100 * tfb metzWitnessParams
  ∧ time_temp metzWitnessParams 1 =
      time_temp metzWitnessParams 0 * (100 : ℝ) ^ ((1 : ℝ) / 499) := by
  have h := time_grid_log_spaced metzWitnessParams one_pos one_pos one_pos
  exact ⟨one_pos, one_pos, one_pos, h.1, h.2.1, h.2.2.1, h.2.2.2 0 (by norm_num)⟩

theorem analytic_fallback_powerlaw_witness :
    (0 : ℝ) < 1 ∧ (0 : ℝ) < 1
  ∧ ((analytic_fallback [2] 1 1).length = ([2] : List ℝ).length
     ∧ analytic_fallback [2] 1 1 = ([2] : List ℝ).map (fun t =>
        if (1 : ℝ) < t then 1 / (t * 86400) ^ ((5 : ℝ) / 3)
        else 1 / ((1 : ℝ) * 86400) ^ ((5 : ℝ) / 3))
     ∧ tde_analytical_bolometric [2] 1 1 none = analytic_fallback [2] 1 1) :=
  ⟨one_pos, one_pos, analytic_fallback_powerlaw [2] 1 1 one_pos one_pos⟩

theorem metzStep_Me_of_ne (P : MetzParams) (s : MetzState) (ii j : ℕ)
    (h : j ≠ ii) : (metzStep P s ii).Me j = s.Me j := by
  simp [metzStep, updF, h]

theorem foldl_metzStep_preserves_Me0 (P : MetzParams) :
    ∀ (n a : ℕ), 1 ≤ a → ∀ s : MetzState,
      ((List.range' a n).foldl (metzStep P) s).Me 0 = s.Me 0 := by
  intro n
  induction n with
  | zero => intro a _ s; rfl
  | succ m ih =>
    intro a ha s
    rw [List.range'_succ, List.foldl_cons, ih (a + 1) (by omega)]
    exact metzStep_Me_of_ne P s a 0 (by omega)

/-- Concrete parameter set for the evolution-loop evaluation: all physical
inputs and constants set to 1, kwargs left at their defaults. -/
noncomputable def metzBugParams : MetzParams :=
  { mbh_6 := 1, stellar_mass := 1, eta := 1, alpha := 1, beta := 1,
    G := 1, c := 1, Msun := 1, Rsun := 1, sigma_sb := 1 }

/-- One admissible content of the np.empty_like buffers of lines 65-91:
all cells zero except the last cell of Me, holding Me[0] + 1, and the last
cell of MdotBH, holding the last fallback rate.  np.empty makes no promise
about these cells, yet the loop iteration ii = 0 reads them through the
numpy index -1. -/
noncomputable def metzBugGarbage : MetzState :=
  { Me := fun i => if i = 499 then metzMe0 metzBugParams + 1 else 0,
    Ee40 := fun _ => 0, Rv := fun _ => 0, Racc := fun _ => 0,
    Rph := fun _ => 0, Edotfb40 := fun _ => 0, tacc := fun _ => 0,
    Edotbh40 := fun _ => 0,
    MdotBH := fun i => if i = 499 then Mdotfb metzBugParams 499 else 0,
    Teff := fun _ => 0, Lrad := fun _ => 0, Lamb := fun _ => 0,
    LX40 := fun _ => 0 }

/-- C2: the evolution loop of _metzger_tde starts at ii = 0, so its first
iteration overwrites the initial conditions of grid point 0 using the
uninitialized last array cells (numpy index -1): with the buffer content
metzBugGarbage, Me[0] ends at its initial value plus one. -/
theorem metzger_loop_overwrites_initial_condition :
    (metzInit metzBugParams metzBugGarbage).Me 0 = metzMe0 metzBugParams
  ∧ (metzEvolve metzBugParams metzBugGarbage).Me 0 = metzMe0 metzBugParams + 1
  ∧ (metzEvolve metzBugParams metzBugGarbage).Me 0 ≠
      (metzInit metzBugParams metzBugGarbage).Me 0 := by
  have hinit : (metzInit metzBugParams metzBugGarbage).Me 0 =
      metzMe0 metzBugParams := by
    simp [metzInit, updF]
  have hrange : List.range 500 = 0 :: List.range' 1 499 := by
    rw [List.range_eq_range']
    rfl
  have hstep0 :
      (metzStep metzBugParams (metzInit metzBugParams metzBugGarbage) 0).Me 0 =
        metzMe0 metzBugParams + 1 := by
    simp [metzStep, pyPrev, updF, metzInit, metzBugGarbage]
  have heval : (metzEvolve metzBugParams metzBugGarbage).Me 0 =
      metzMe0 metzBugParams + 1 := by
    unfold metzEvolve
    rw [hrange, List.foldl_cons,
      foldl_metzStep_preserves_Me0 metzBugParams 499 1 (by omega), hstep0]
  refine ⟨hinit, heval, ?_⟩
  rw [heval, hinit]
  intro hcontra
  linarith

end Redback

